import Mathlib

/-!
Shallow embedding of the real-time state-synchronization layer of the
parade repository: the Zustand store in src/renderer/store/beadsStore.ts
and the IPC debounce stage in the Electron main process entry point.

Asynchronous store operations are split at their suspension points
(every `await` of an external call): the synchronous prefix up to the
await is one Lean function, and the continuation that runs when the
external call resolves is another, taking the resolution value and the
store state at resolution time.  Interleavings of overlapping
operations are expressed by composing these phase functions in the
corresponding order.
-/

/-- Issue status, the enumerated set used by the tracker
(open, in_progress, blocked, closed). -/
inductive IssueStatus where
  | open_
  | in_progress
  | blocked
  | closed
deriving DecidableEq, Repr

/-- Issue identifier (BeadId in shared/types/beads). -/
abbrev BeadId := String

/-- An issue as the store manipulates it: an identifier and a status.
Remaining fields of the TS Issue type are never read or written by the
operations modelled here, except being copied verbatim by the spread
`{ ...issue, status }`, so they are omitted. -/
structure Issue where
  id : BeadId
  status : IssueStatus
deriving DecidableEq, Repr

/-- A project entry, as consulted by fetchIssues: only the identifier is
inspected (`p.id === activeProjectId`). -/
structure Project where
  id : String
  path : String
  isActive : Bool
deriving DecidableEq, Repr

/-- The slice of the Zustand BeadsState that the modelled operations read
or write: projects, activeProjectId, issues, isLoading, error,
selectedEpic and collapsedBatches. -/
structure BeadsState where
  projects : List Project
  activeProjectId : Option String
  issues : List Issue
  isLoading : Bool
  error : Option String
  selectedEpic : Option Issue
  collapsedBatches : Finset Int
deriving DecidableEq

/-- How the synchronous prefix of fetchIssues ended: returned early
because no project is active, returned early because the active project
id has no matching project entry, or reached the `await beads.list(...)`
call (the fetch was actually dispatched). -/
inductive FetchPhase where
  | noProject
  | staleProject
  | dispatched
deriving DecidableEq, Repr

/-- Synchronous prefix of fetchIssues(options) up to `await beads.list`:

    if (!activeProjectId) { if (!silent) set({ issues: [], isLoading: false }); return; }
    const activeProject = projects.find((p) => p.id === activeProjectId);
    if (!activeProject) { set({ issues: [], isLoading: false, error: Active project not found }); return; }
    if (!silent) { set({ isLoading: true, error: null }); }

Returns the state after this prefix together with how the prefix ended. -/
def fetchIssuesStart (silent : Bool) (s : BeadsState) : BeadsState × FetchPhase :=
  match s.activeProjectId with
  | none =>
      (if silent then s else { s with issues := [], isLoading := false }, .noProject)
  | some pid =>
      if (s.projects.find? (fun p => p.id == pid)).isSome then
        (if silent then s else { s with isLoading := true, error := none }, .dispatched)
      else
        ({ s with issues := [], isLoading := false,
                  error := some "Active project not found" }, .staleProject)

/-- Continuation of fetchIssues once `beads.list` resolves, applied to the
store state current at resolution time:

    try { const issues = await beads.list(get().filters);
          set({ issues, isLoading: false }); }
    catch (err) { set({ error: ..., isLoading: false }); }

Both branches run identically for silent and non-silent fetches. -/
def fetchIssuesResolve (r : Except String (List Issue)) (s : BeadsState) : BeadsState :=
  match r with
  | .ok issues => { s with issues := issues, isLoading := false }
  | .error msg => { s with error := some msg, isLoading := false }

/-- The status the store currently holds for an identifier: status of the
first issue in the list with that id, if any. -/
def statusOf (id : BeadId) (s : BeadsState) : Option IssueStatus :=
  (s.issues.find? (fun i => i.id == id)).map (fun i => i.status)

/-- The per-issue mutation used by updateIssueStatus (both the optimistic
write and the rollback write):

    state.issues.map((issue) => issue.id === id ? { ...issue, status } : issue) -/
def applyStatus (id : BeadId) (st : IssueStatus) (issues : List Issue) : List Issue :=
  issues.map (fun i => if i.id == id then { i with status := st } else i)

/-- Observable record of one run of updateIssueStatus(id, status):
the rollback snapshot captured at entry, the store state after the
synchronous optimistic mutation and before `await beads.update`, the
store state when the operation finishes (assuming no other operation
interleaves during the await), whether a refetch was dispatched from the
failure path (carrying the silent flag it was dispatched with), and
whether the error was re-raised to the caller. -/
structure UpdateRun where
  snapshot : Option IssueStatus
  midState : BeadsState
  finalState : BeadsState
  refetchSilent : Option Bool
  raised : Bool
deriving DecidableEq

/-- updateIssueStatus(id, status), with the outcome of the external
`beads.update(id, { status })` call passed as the boolean updateOk:

    const previousIssue = get().issues.find((i) => i.id === id);
    const previousStatus = previousIssue?.status;
    set((state) => ({ issues: state.issues.map(...) }));   // optimistic
    try { await beads.update(id, { status }); }
    catch (err) {
      if (previousStatus) { set((state) => ({ issues: state.issues.map(... previousStatus ...) })); }
      else { get().fetchIssues(); }                        // silent defaults to false
      throw err;
    }

The snapshot is truthy exactly when the find succeeded, since every
status string is non-empty. -/
def updateIssueStatus (id : BeadId) (status : IssueStatus) (updateOk : Bool)
    (s : BeadsState) : UpdateRun :=
  let previousStatus := (s.issues.find? (fun i => i.id == id)).map (fun i => i.status)
  let mid : BeadsState := { s with issues := applyStatus id status s.issues }
  if updateOk then
    { snapshot := previousStatus, midState := mid, finalState := mid,
      refetchSilent := none, raised := false }
  else
    match previousStatus with
    | some p =>
        { snapshot := some p, midState := mid,
          finalState := { mid with issues := applyStatus id p mid.issues },
          refetchSilent := none, raised := true }
    | none =>
        { snapshot := none, midState := mid, finalState := mid,
          refetchSilent := some false, raised := true }

/-- toggleBatchCollapse(batchNumber):

    const newCollapsed = new Set(state.collapsedBatches);
    if (newCollapsed.has(batchNumber)) newCollapsed.delete(batchNumber);
    else newCollapsed.add(batchNumber);

(The subsequent saveCollapsedBatches call persists the set to storage and
does not change the store state.) -/
def toggleBatchCollapse (batchNumber : Int) (s : BeadsState) : BeadsState :=
  { s with collapsedBatches :=
      if batchNumber ∈ s.collapsedBatches then s.collapsedBatches.erase batchNumber
      else insert batchNumber s.collapsedBatches }

/-- The two event kinds carried by the change bus
(IPC_CHANNELS.EVENTS.DISCOVERY_CHANGED and BEADS_CHANGED). -/
inductive ChangeEventKind where
  | discoveryChanged
  | beadsChanged
deriving DecidableEq, Repr

/-- The event sources subscribeToChanges registers a listener on: the
source body makes exactly one registration,
`window.electron.events.onBeadsChange(...)`, the renderer-side end of the
BEADS_CHANGED channel. -/
def subscribedEventKinds : List ChangeEventKind := [.beadsChanged]

/-- Observable record of one delivery of a change event to the handler
registered by subscribeToChanges: the silent flag of the fetchIssues
dispatch, the silent flag of the fetchIssuesWithDeps dispatch when one is
made, and the epic id passed to computeBatchesForEpic when the deps fetch
completes. -/
structure ChangeHandlerRun where
  fetchIssuesSilent : Option Bool
  depsFetchSilent : Option Bool
  batchRootUsed : Option BeadId
deriving DecidableEq, Repr

/-- The handler subscribeToChanges registers, as a function of the store
state at event-delivery time and the store state at the later time when
fetchIssuesWithDeps completes:

    const { fetchIssues, fetchIssuesWithDeps, computeBatchesForEpic, selectedEpic } = get();
    fetchIssues({ silent: true });
    if (selectedEpic) {
      fetchIssuesWithDeps({ silent: true }).then(() => {
        computeBatchesForEpic(selectedEpic.id);
      });
    }

selectedEpic is destructured from get() when the event is delivered and
the .then continuation closes over that captured value, so the batch root
is a function of the delivery-time state only; the completion-time state
is not consulted. -/
def onBeadsChangeHandler (deliveryState _completionState : BeadsState) : ChangeHandlerRun :=
  let selectedEpic := deliveryState.selectedEpic
  { fetchIssuesSilent := some true
    depsFetchSilent := if selectedEpic.isSome then some true else none
    batchRootUsed := selectedEpic.map (fun e => e.id) }

/-- The trailing-edge debounce of the Electron main process entry point:

    function debounce(fn, ms) {
      let timeoutId = null;
      return (...args) => {
        if (timeoutId) clearTimeout(timeoutId);
        timeoutId = setTimeout(() => fn(...args), ms);
      };
    }

Modelled denotationally over a non-decreasing list of call times: each
call cancels the pending timer and schedules the wrapped function ms
later; a scheduled firing at t + ms survives exactly when the next call
arrives no earlier than t + ms.  The result is the list of times at
which the wrapped function fires. -/
def debounceFires (ms : Nat) : List Nat → List Nat
  | [] => []
  | [t] => [t + ms]
  | t1 :: t2 :: rest =>
      if t2 < t1 + ms then debounceFires ms (t2 :: rest)
      else (t1 + ms) :: debounceFires ms (t2 :: rest)

/-- The window of the debounced BEADS_CHANGED sender:

    const sendBeadsChange = debounce(() => {
      mainWindow?.webContents.send(IPC_CHANNELS.EVENTS.BEADS_CHANGED);
    }, 300); -/
def sendBeadsChangeDebounceMs : Nat := 300

/-! Concrete fixtures used by witnesses and counterexamples. -/

/-- A sample project entry. -/
def proj1 : Project := { id := "p1", path := "/tmp/p1", isActive := true }

/-- A sample issue, initially open. -/
def issueA : Issue := { id := "a", status := .open_ }

/-- A store state with one active project and the single issue issueA. -/
def baseState : BeadsState :=
  { projects := [proj1], activeProjectId := some "p1", issues := [issueA],
    isLoading := false, error := none, selectedEpic := none, collapsedBatches := ∅ }

/-- The last signal time of a burst beginning at t and continuing with ts. -/
def lastSignal (t : Nat) (ts : List Nat) : Nat :=
  match ts with
  | [] => t
  | t2 :: rest => lastSignal t2 rest

/-! Helper lemmas shared by several developments below. -/

/-- Overwriting the status of an id rewrites the first match for that id
accordingly and nothing else about it. -/
theorem find?_applyStatus (id : BeadId) (st : IssueStatus) (l : List Issue) :
    (applyStatus id st l).find? (fun i => i.id == id)
      = (l.find? (fun i => i.id == id)).map (fun i => { i with status := st }) := by
  induction l with
  | nil => rfl
  | cons i l ih =>
    by_cases h : i.id = id
    · simp [applyStatus, List.find?_cons, h]
    · simpa [applyStatus, List.find?_cons, h] using ih

/-- Every issue carrying the target id after applyStatus carries the new
status. -/
theorem mem_applyStatus (id : BeadId) (st : IssueStatus) (l : List Issue)
    (i : Issue) (hi : i ∈ applyStatus id st l) (hid : i.id = id) : i.status = st := by
  rcases List.mem_map.1 hi with ⟨j, _, rfl⟩
  by_cases h : j.id = id
  · simp [h]
  · simp [h] at hid

/-- The state after the synchronous optimistic mutation of updateIssueStatus
does not depend on how the pending external call will resolve. -/
theorem updateIssueStatus_midState (id : BeadId) (st : IssueStatus) (b : Bool)
    (s : BeadsState) :
    (updateIssueStatus id st b s).midState
      = { s with issues := applyStatus id st s.issues } := by
  cases b
  · unfold updateIssueStatus
    cases hf : (s.issues.find? (fun i => i.id == id)) <;> simp [hf]
  · rfl

/-- The rollback snapshot captured by updateIssueStatus is the status the
store holds for the id when the call starts. -/
theorem updateIssueStatus_snapshot (id : BeadId) (st : IssueStatus) (b : Bool)
    (s : BeadsState) :
    (updateIssueStatus id st b s).snapshot = statusOf id s := by
  cases b
  · unfold updateIssueStatus statusOf
    cases hf : (s.issues.find? (fun i => i.id == id)) <;> simp [hf]
  · rfl

/-- A burst whose consecutive gaps are all below the window produces exactly
one firing of the debounced function, scheduled one window after the last
signal of the burst. -/
theorem debounceFires_burst (ms : Nat) (t : Nat) (ts : List Nat)
    (h : List.Chain (fun a b => b < a + ms) t ts) :
    debounceFires ms (t :: ts) = [lastSignal t ts + ms] := by
  induction ts generalizing t with
  | nil => rfl
  | cons t2 rest ih =>
    cases h with
    | cons h12 hrest =>
      rw [debounceFires, if_pos h12, lastSignal, ih t2 hrest]

/-- A store state with no active project but a non-empty issue list. -/
def noProjState : BeadsState := { baseState with activeProjectId := none }

/-- A store state whose loading flag is raised. -/
def loadingState : BeadsState := { baseState with isLoading := true }

/-- C10: calling toggleBatchCollapse twice with the same batch number leaves
the collapsed-batches set exactly as it was, and a single call changes no
membership other than that of the toggled batch number. -/
theorem claim10_toggle_involution (s : BeadsState) (b : Int) :
    (toggleBatchCollapse b (toggleBatchCollapse b s)).collapsedBatches
        = s.collapsedBatches ∧
    ∀ x : Int, x ≠ b →
      ((x ∈ (toggleBatchCollapse b s).collapsedBatches) ↔ x ∈ s.collapsedBatches) := by
  constructor
  · by_cases hb : b ∈ s.collapsedBatches
    · simp [toggleBatchCollapse, hb, Finset.insert_erase]
    · simp [toggleBatchCollapse, hb, Finset.erase_insert hb]
  · intro x hx
    by_cases hb : b ∈ s.collapsedBatches
    · simp [toggleBatchCollapse, hb, Finset.mem_erase, hx]
    · simp [toggleBatchCollapse, hb, Finset.mem_insert, hx]

/-- Witness for C10 at a concrete state and batch numbers 1 and 2. -/
theorem claim10_witness :
    (toggleBatchCollapse 1 (toggleBatchCollapse 1 baseState)).collapsedBatches
        = baseState.collapsedBatches ∧
    (((2 : Int) ∈ (toggleBatchCollapse 1 baseState).collapsedBatches) ↔
        (2 : Int) ∈ baseState.collapsedBatches) :=
  ⟨(claim10_toggle_involution baseState 1).1,
   (claim10_toggle_involution baseState 1).2 2 (by decide)⟩

/-- C6: updateIssueStatus mutates the in-memory list synchronously: in the
state reached after the optimistic mutation and before the external call
resolves, every issue with the target id reads the new status, and that
state is the same whether the external call will later succeed or fail. -/
theorem claim6_optimistic_visibility (s : BeadsState) (id : BeadId)
    (st : IssueStatus) (ok : Bool) :
    (∀ i ∈ (updateIssueStatus id st ok s).midState.issues,
        i.id = id → i.status = st) ∧
    (updateIssueStatus id st ok s).midState
        = (updateIssueStatus id st true s).midState := by
  refine ⟨?_, (updateIssueStatus_midState id st ok s).trans
      (updateIssueStatus_midState id st true s).symm⟩
  intro i hi hid
  rw [updateIssueStatus_midState] at hi
  exact mem_applyStatus id st s.issues i hi hid

/-- Witness for C6: closing issue a from the base state, the pre-resolution
state reads a as closed. -/
theorem claim6_witness :
    Issue.mk "a" .closed ∈ (updateIssueStatus "a" .closed true baseState).midState.issues ∧
    (Issue.mk "a" .closed).status = .closed :=
  ⟨by decide,
   (claim6_optimistic_visibility baseState "a" .closed true).1
     (Issue.mk "a" .closed) (by decide) (by decide)⟩

/-- C5: on failure of the external update call, the error is re-raised to
the caller; when a pre-edit snapshot exists the status of the id is
restored exactly to it and no refetch is dispatched; when no snapshot
exists a non-silent refetch is dispatched and no rollback write occurs. -/
theorem claim5_failure_rollback (s : BeadsState) (id : BeadId) (st : IssueStatus) :
    (updateIssueStatus id st false s).raised = true ∧
    (∀ p, (updateIssueStatus id st false s).snapshot = some p →
      (updateIssueStatus id st false s).refetchSilent = none ∧
      ∀ i ∈ (updateIssueStatus id st false s).finalState.issues,
        i.id = id → i.status = p) ∧
    ((updateIssueStatus id st false s).snapshot = none →
      (updateIssueStatus id st false s).refetchSilent = some false ∧
      (updateIssueStatus id st false s).finalState
          = (updateIssueStatus id st false s).midState) := by
  cases hf : (s.issues.find? (fun i => i.id == id)) with
  | none =>
    unfold updateIssueStatus
    simp [hf]
  | some j =>
    unfold updateIssueStatus
    simp only [hf, Option.map_some, if_neg Bool.false_ne_true, Bool.false_eq_true,
      if_false]
    refine ⟨rfl, ?_, by simp⟩
    intro p hp
    obtain rfl : j.status = p := by simpa using hp
    refine ⟨rfl, ?_⟩
    intro i hi hid
    exact mem_applyStatus id j.status _ i hi hid

/-- Witness for C5: failing external calls from the base state, once for the
present issue a (snapshot open, rollback path) and once for the absent
issue b (no snapshot, refetch path). -/
theorem claim5_witness :
    (updateIssueStatus "a" .closed false baseState).snapshot = some .open_ ∧
    (updateIssueStatus "a" .closed false baseState).refetchSilent = none ∧
    (updateIssueStatus "b" .closed false baseState).snapshot = none ∧
    (updateIssueStatus "b" .closed false baseState).refetchSilent = some false :=
  ⟨by decide,
   ((claim5_failure_rollback baseState "a" .closed).2.1 .open_ (by decide)).1,
   by decide,
   ((claim5_failure_rollback baseState "b" .closed).2.2 (by decide)).1⟩

/-- C8: the delivery-stage debounce of the beads-changed sender is
trailing-edge — the concrete burst 0, 100, 200 (gaps below the window)
yields exactly one firing, one window after the last signal — but its
window is hardcoded to 300 ms, not the 150 ms target stated by the spec
and by the acceptance criteria of the performance spec in the repository. -/
theorem claim8_ipc_debounce_window :
    sendBeadsChangeDebounceMs = 300 ∧
    sendBeadsChangeDebounceMs ≠ 150 ∧
    debounceFires sendBeadsChangeDebounceMs [0, 100, 200] = [500] ∧
    debounceFires 150 [0, 100, 200] = [350] := by decide

/-- C9 counterexample: with no active project, a silent fetchIssues leaves a
non-empty issue list in place instead of clearing it. -/
theorem claim9_cex :
    noProjState.activeProjectId = none ∧
    noProjState.issues = [issueA] ∧
    (fetchIssuesStart true noProjState).1.issues = [issueA] ∧
    [issueA] ≠ ([] : List Issue) := by decide

/-- C9 (amended): with no active project, a non-silent fetchIssues clears
the issue list and loading flag and dispatches no fetch; a silent one
leaves the whole state untouched; neither records an error. -/
theorem claim9_no_project (s : BeadsState) (h : s.activeProjectId = none) :
    (fetchIssuesStart false s).1.issues = [] ∧
    (fetchIssuesStart false s).1.isLoading = false ∧
    (fetchIssuesStart false s).1.error = s.error ∧
    (fetchIssuesStart false s).2 = .noProject ∧
    (fetchIssuesStart true s).1 = s ∧
    (fetchIssuesStart true s).2 = .noProject := by
  simp [fetchIssuesStart, h]

/-- Witness for C9 at the concrete no-project state. -/
theorem claim9_witness :
    noProjState.activeProjectId = none ∧
    (fetchIssuesStart false noProjState).1.issues = [] ∧
    (fetchIssuesStart true noProjState).1 = noProjState :=
  ⟨rfl, (claim9_no_project noProjState rfl).1,
   (claim9_no_project noProjState rfl).2.2.2.2.1⟩

/-- C1: with updateStatus(a, in_progress) applied optimistically and its
external call still pending, a watcher-triggered silent refresh that
commits a fetched list showing a as open overwrites the locally-held
optimistic status: the store then reads a as open, not in_progress.
The store tracks no pending-edit identifiers, and the commit of a fetch
replaces the issue list wholesale. -/
theorem claim1_pending_edit_overwritten :
    statusOf "a" (updateIssueStatus "a" .in_progress true baseState).midState
        = some .in_progress ∧
    statusOf "a"
      (fetchIssuesResolve (Except.ok [{ id := "a", status := .open_ }])
        (fetchIssuesStart true
          (updateIssueStatus "a" .in_progress true baseState).midState).1)
        = some .open_ ∧
    some IssueStatus.open_ ≠ some IssueStatus.in_progress := by decide

/-- The list returned by the earlier-dispatched, slower fetch. -/
def listA : List Issue := [{ id := "a", status := .closed }]

/-- The list returned by the later-dispatched, faster fetch. -/
def listB : List Issue := [{ id := "a", status := .in_progress }]

/-- C2 counterexample: two silent fetches are dispatched in the order
first-then-second; the second resolves first with listB, then the first
resolves with listA.  The store ends holding listA, the list of the
earlier-dispatched request, so the most recently dispatched request does
not win. -/
theorem claim2_cex :
    (fetchIssuesResolve (Except.ok listA)
      (fetchIssuesResolve (Except.ok listB)
        (fetchIssuesStart true (fetchIssuesStart true baseState).1).1)).issues
      = listA ∧
    listA ≠ listB := by decide

/-- C2 (amended): the committed list is determined by completion order
alone: of two overlapping fetches, whichever resolves last leaves its list
in the store, regardless of dispatch order. -/
theorem claim2_completion_order (s : BeadsState) (l1 l2 : List Issue) :
    (fetchIssuesResolve (Except.ok l2)
      (fetchIssuesResolve (Except.ok l1)
        (fetchIssuesStart true (fetchIssuesStart true s).1).1)).issues = l2 := by
  simp [fetchIssuesResolve]

/-- C3 counterexample: issue a is open; a first updateStatus(a, in_progress)
is applied optimistically and its external call is still pending when a
second updateStatus(a, closed) starts.  The second call captures the
optimistic in_progress as its rollback snapshot, not the pre-edit open. -/
theorem claim3_cex :
    statusOf "a" baseState = some .open_ ∧
    (updateIssueStatus "a" .closed false
      (updateIssueStatus "a" .in_progress true baseState).midState).snapshot
        = some .in_progress ∧
    some IssueStatus.in_progress ≠ some IssueStatus.open_ := by decide

/-- C3 (amended): a second updateStatus for an id whose first optimistic
edit is still pending captures as its rollback snapshot the status the
store currently holds, which is the first edit's optimistic value. -/
theorem claim3_reentrant_snapshot (s : BeadsState) (id : BeadId)
    (st1 st2 : IssueStatus) (ok1 ok2 : Bool)
    (h : (statusOf id s).isSome) :
    (updateIssueStatus id st2 ok2
      (updateIssueStatus id st1 ok1 s).midState).snapshot = some st1 := by
  rw [updateIssueStatus_snapshot, updateIssueStatus_midState]
  unfold statusOf at h ⊢
  rw [show ({ s with issues := applyStatus id st1 s.issues } : BeadsState).issues
        = applyStatus id st1 s.issues from rfl, find?_applyStatus]
  cases hf : s.issues.find? (fun i => i.id == id) with
  | none => rw [hf] at h; simp at h
  | some j => simp [hf]

/-- Witness for C3: the concrete stacked edits of the counterexample state,
instantiating the amended theorem at the base state. -/
theorem claim3_witness :
    (statusOf "a" baseState).isSome = true ∧
    (updateIssueStatus "a" .closed true
      (updateIssueStatus "a" .in_progress true baseState).midState).snapshot
        = some .in_progress :=
  ⟨by decide,
   claim3_reentrant_snapshot baseState "a" .in_progress .closed true true (by decide)⟩

/-- C4 counterexample: with the loading flag raised and an active project,
a silent fetchIssues that commits its result forces the flag to false, so
the value after the operation differs from the value before the call. -/
theorem claim4_cex :
    loadingState.isLoading = true ∧
    (fetchIssuesResolve (Except.ok [issueA])
        (fetchIssuesStart true loadingState).1).isLoading = false ∧
    false ≠ true := by decide

/-- C4 (amended): a silent fetchIssues never raises the loading flag — the
synchronous prefix only ever leaves it or lowers it, which is what keeps a
loading flash from appearing — but it does not leave the flag untouched:
committing the result, recording a failure, and the stale-project early
return all force the flag to false. -/
theorem claim4_silent_no_loading_flash (s : BeadsState) (r : Except String (List Issue)) :
    ((fetchIssuesStart true s).1.isLoading = true → s.isLoading = true) ∧
    (fetchIssuesResolve r (fetchIssuesStart true s).1).isLoading = false := by
  constructor
  · intro h
    cases hA : s.activeProjectId with
    | none => rw [fetchIssuesStart, hA] at h; exact h
    | some pid =>
      by_cases hf : (s.projects.find? (fun p => p.id == pid)).isSome
      · rw [fetchIssuesStart, hA] at h
        simpa [hf] using h
      · rw [fetchIssuesStart, hA] at h
        simp [hf] at h
  · cases r <;> simp [fetchIssuesResolve]

/-- Witness for C4 at the concrete loading state with a successful silent
refresh. -/
theorem claim4_witness :
    loadingState.isLoading = true ∧
    (fetchIssuesResolve (Except.ok [issueA])
        (fetchIssuesStart true loadingState).1).isLoading = false :=
  ⟨(claim4_silent_no_loading_flash loadingState (Except.ok [issueA])).1 (by decide),
   (claim4_silent_no_loading_flash loadingState (Except.ok [issueA])).2⟩

/-- An epic selected when a change event is delivered. -/
def epic1 : Issue := { id := "e1", status := .open_ }

/-- A different epic, selected by the time the deps fetch completes. -/
def epic2 : Issue := { id := "e2", status := .open_ }

/-- C7 counterexample: epic e1 is selected when the change event is
delivered and the selection has moved to e2 by the time fetchIssuesWithDeps
completes; the batch recomputation still receives e1, the delivery-time
root, not the completion-time root e2.  The subscription also does not
cover the discovery-changed kind. -/
theorem claim7_cex :
    (onBeadsChangeHandler { baseState with selectedEpic := some epic1 }
        { baseState with selectedEpic := some epic2 }).batchRootUsed = some "e1" ∧
    ({ baseState with selectedEpic := some epic2 } : BeadsState).selectedEpic.map
        (fun e => e.id) = some "e2" ∧
    (some "e1" : Option BeadId) ≠ some "e2" ∧
    ChangeEventKind.discoveryChanged ∉ subscribedEventKinds := by decide

/-- C7 (amended): the handler registered by subscribeToChanges is
insensitive to the state at deps-fetch completion time — the root passed to
the batch recomputation is the epic captured when the event was delivered —
its fetches are silent, and the single registered listener is on the
beads-changed source only. -/
theorem claim7_delivery_time_capture (d c c' : BeadsState) :
    onBeadsChangeHandler d c = onBeadsChangeHandler d c' ∧
    (onBeadsChangeHandler d c).batchRootUsed = d.selectedEpic.map (fun e => e.id) ∧
    (onBeadsChangeHandler d c).fetchIssuesSilent = some true ∧
    (d.selectedEpic.isSome = true →
        (onBeadsChangeHandler d c).depsFetchSilent = some true) ∧
    subscribedEventKinds = [ChangeEventKind.beadsChanged] := by
  refine ⟨rfl, rfl, rfl, ?_, rfl⟩
  intro h
  simp [onBeadsChangeHandler, h]

/-- Witness for C7 at a delivery state with epic e1 selected. -/
theorem claim7_witness :
    ({ baseState with selectedEpic := some epic1 } : BeadsState).selectedEpic.isSome
        = true ∧
    (onBeadsChangeHandler { baseState with selectedEpic := some epic1 }
        baseState).depsFetchSilent = some true :=
  ⟨by decide,
   (claim7_delivery_time_capture { baseState with selectedEpic := some epic1 }
       baseState baseState).2.2.2.1 (by decide)⟩
